import Mathlib

/-!
Verification of the media-acquisition core of the Soeg1916/koyyy repository.

The definitions below are a shallow embedding of the Python source:
`src/utils.py` (URL classification), `src/media_downloader.py`
(slideshow detection, slideshow download, direct-download fallback chains)
and `src/pinterest_extractor.py` (asset extension derivation).
Network interaction (`requests.head` / `requests.get`) is modelled by an
explicit oracle `Net`; a `none` answer stands for a raised exception or a
non-200 status, exactly where the Python code treats those alike.
-/

/-! ## String helpers mirroring Python's `in`, `str.count` and `int()` -/

/-- Embedding of the Python substring test `pat in l` on character lists:
true iff `pat` occurs contiguously in `l`. -/
def containsAux (pat : List Char) : List Char → Bool
  | [] => pat.isEmpty
  | c :: rest => pat.isPrefixOf (c :: rest) || containsAux pat rest

/-- Embedding of the Python substring test `pat in s` for strings. -/
def strContains (s pat : String) : Bool :=
  containsAux pat.toList s.toList

/-- Embedding of Python's `s.lower()` (ASCII case folding), computed on
the character list so that it reduces in the kernel. -/
def strLower (s : String) : String :=
  String.mk (s.data.map Char.toLower)

/-- Embedding of Python's `s.startswith(pat)`, computed on the character
list so that it reduces in the kernel. -/
def strStartsWith (s pat : String) : Bool :=
  pat.data.isPrefixOf s.data

/-- Embedding of Python's `s.count(pat)` for a non-empty pattern:
number of non-overlapping occurrences, scanning left to right. -/
def strCount (s pat : String) : Nat :=
  (s.splitOn pat).length - 1

theorem containsAux_iff (pat : List Char) :
    ∀ l : List Char, containsAux pat l = true ↔ pat <:+: l := by
  intro l
  induction l with
  | nil => simp [containsAux, List.isEmpty_iff]
  | cons c rest ih =>
    simp [containsAux, List.infix_cons_iff, ih]

theorem strContains_iff (s pat : String) :
    strContains s pat = true ↔ pat.toList <:+: s.toList := by
  simp [strContains, containsAux_iff]

theorem strContains_mono (s a b : String)
    (hab : containsAux b.toList a.toList = true)
    (h : strContains s a = true) : strContains s b = true := by
  rw [strContains_iff] at h ⊢
  rw [containsAux_iff] at hab
  exact hab.trans h

/-- Whitespace characters stripped by Python's `int(str)` conversion
(ASCII subset). -/
def pyIsSpace (c : Char) : Bool :=
  c = ' ' || c = '\t' || c = '\n' || c = '\r' || c = '\x0b' || c = '\x0c'

/-- Digit-group tail of a Python integer literal: digits with single
underscores allowed between digits. -/
def pyIntDigitsCore (acc : Nat) : List Char → Option Nat
  | [] => some acc
  | '_' :: c :: rest =>
    if c.isDigit then pyIntDigitsCore (10 * acc + (c.toNat - 48)) rest else none
  | c :: rest =>
    if c.isDigit then pyIntDigitsCore (10 * acc + (c.toNat - 48)) rest else none

/-- Digit group of a Python integer literal (must start with a digit). -/
def pyIntDigits : List Char → Option Nat
  | [] => none
  | c :: rest =>
    if c.isDigit then pyIntDigitsCore (c.toNat - 48) rest else none

/-- Embedding of Python's `int(s)`: strips whitespace, accepts an optional
sign and a digit group; `none` models the raised `ValueError`. -/
def pyInt (s : String) : Option Int :=
  let t := ((s.toList.dropWhile pyIsSpace).reverse.dropWhile pyIsSpace).reverse
  match t with
  | '+' :: rest => (pyIntDigits rest).map (fun n => (n : Int))
  | '-' :: rest => (pyIntDigits rest).map (fun n => -(n : Int))
  | rest => (pyIntDigits rest).map (fun n => (n : Int))

/-! ## URL and network model -/

/-- A URL as seen through `urllib.parse`: the raw string plus the parsed
netloc, path, and query (`parse_qs` maps each key to a non-empty list of
values; every use in the source reads index 0, so we record the first
value per key). -/
structure Url where
  raw : String
  netloc : String
  path : String
  query : List (String × String)
deriving DecidableEq, Repr

/-- First query value for a key, as `parse_qs(...)[key][0]`. -/
def qFirst (q : List (String × String)) (k : String) : Option String :=
  (q.find? (fun p => p.1 == k)).map (fun p => p.2)

/-- An `img` tag as inspected by `is_tiktok_slideshow`
(media_downloader.py lines 145-151). -/
structure ImgTag where
  hasDataSrc : Bool
  reprLower : String
deriving DecidableEq, Repr

/-- A `meta` tag as inspected by `is_tiktok_slideshow`
(media_downloader.py lines 165-172). -/
structure MetaTag where
  content : Option String
  reprLower : String
deriving DecidableEq, Repr

/-- A fetched and parsed HTML page: raw text plus the tag views the
BeautifulSoup calls in `is_tiktok_slideshow` extract from it. -/
structure Page where
  text : String
  imgs : List ImgTag
  scripts : List (Option String)
  metas : List MetaTag

/-- The network oracle. `head u` models
`requests.head(u, allow_redirects=True)`: `some r` is the resolved URL on
status 200, `none` covers an exception or a non-200 status. `page u`
models `requests.get(u)`: `some pg` is a parsed 200 response, `none`
covers an exception or a non-200 status. -/
structure Net where
  head : Url → Option Url
  page : Url → Option Page

/-! ## utils.py -/

/-- Supported domain list of `is_valid_url` (utils.py lines 39-47). -/
def supported_domains : List String :=
  ["tiktok.com", "vm.tiktok.com", "instagram.com", "youtube.com",
   "youtu.be", "pinterest.com", "pin.it"]

/-- Embedding of `is_valid_url` (utils.py lines 16-54) applied to an
already-extracted URL: some supported domain occurs in the lowercased
netloc. -/
def is_valid_url (u : Url) : Bool :=
  supported_domains.any (fun d => strContains (strLower u.netloc) d)

/-- Embedding of `is_pinterest_video_url` (pinterest_extractor.py lines
347-372); note the netloc is compared without lowercasing there. -/
def is_pinterest_video_url (u : Url) : Bool :=
  if !(strContains u.netloc "pinterest") && !(strContains u.netloc "pin.it") then
    false
  else
    ["/video/", "watch/", "player/", "reel/"].any
      (fun ind => strContains (strLower u.path) ind)

/-- The `pic_cnt` check of `get_url_type` (utils.py lines 97-107):
`int` of the first value, slideshow if positive; on `ValueError`
slideshow if the value differs from the string 0. -/
def picCntSignalUtils (q : List (String × String)) : Bool :=
  match qFirst q "pic_cnt" with
  | none => false
  | some v =>
    match pyInt v with
    | some n => decide (0 < n)
    | none => decide (v ≠ "0")

/-- The short-link resolution check of `get_url_type` (utils.py lines
110-135): for vm/vt hosts, HEAD-resolve and look for `/photo/`,
`aweme_type=150` or a non-`'0'` `pic_cnt` on the resolved URL; resolution
errors are swallowed. -/
def tiktokShortSignal (net : Net) (u : Url) : Bool :=
  let domain := (strLower u.netloc)
  if strContains domain "vm.tiktok.com" || strContains domain "vt.tiktok.com" then
    match net.head u with
    | none => false
    | some r =>
      strContains (strLower r.path) "/photo/" ||
      decide (qFirst r.query "aweme_type" = some "150") ||
      (match qFirst r.query "pic_cnt" with
       | some v => decide (v ≠ "0")
       | none => false)
  else false

/-- The `share_item_id` check of `get_url_type` (utils.py lines 138-142). -/
def shareItemSignal (u : Url) : Bool :=
  (qFirst u.query "share_item_id").isSome &&
  (strContains (strLower u.raw) "photo" || strContains (strLower u.raw) "image" ||
   strContains (strLower u.raw) "slideshow")

/-- Media kind returned by classification. -/
inductive Kind
  | video
  | image
  | slideshow
deriving DecidableEq, Repr

/-- Platform returned by classification. -/
inductive Platform
  | tiktok
  | instagram
  | youtube
  | pinterest
  | unknown
deriving DecidableEq, Repr

/-- Embedding of `get_url_type` (utils.py lines 56-152). -/
def get_url_type (net : Net) (u : Url) : Kind × Platform :=
  let domain := (strLower u.netloc)
  let path := (strLower u.path)
  if strContains domain "pinterest" || strContains domain "pin.it" then
    if is_pinterest_video_url u then (Kind.video, Platform.pinterest)
    else (Kind.image, Platform.pinterest)
  else if strContains domain "instagram" then
    if strContains path "/reel/" || strContains path "/reels/" then
      (Kind.video, Platform.instagram)
    else (Kind.video, Platform.instagram)
  else if strContains domain "tiktok" then
    if strContains path "/photo/" then (Kind.slideshow, Platform.tiktok)
    else if qFirst u.query "aweme_type" = some "150" then
      (Kind.slideshow, Platform.tiktok)
    else if picCntSignalUtils u.query then (Kind.slideshow, Platform.tiktok)
    else if tiktokShortSignal net u then (Kind.slideshow, Platform.tiktok)
    else if shareItemSignal u then (Kind.slideshow, Platform.tiktok)
    else (Kind.video, Platform.tiktok)
  else if strContains domain "youtube" || strContains domain "youtu.be" then
    (Kind.video, Platform.youtube)
  else
    (Kind.video, Platform.unknown)

/-- Terminal classification failure. -/
inductive ClassifyError
  | UnsupportedPlatform
deriving DecidableEq, Repr

/-- The classification entry point as the bot layer composes it: the
`is_valid_url` gate (bot.py line 161) in front of `get_url_type`
(bot.py line 168); a URL rejected by the gate never reaches
`get_url_type` and the request fails as unsupported. -/
def classify (net : Net) (u : Url) : Except ClassifyError (Kind × Platform) :=
  if is_valid_url u then Except.ok (get_url_type net u)
  else Except.error ClassifyError.UnsupportedPlatform

/-! ## media_downloader.py: slideshow detection -/

/-- The URL-normalisation step of `is_tiktok_slideshow`
(media_downloader.py lines 62-76): when the raw URL mentions a short host
or lacks `www.tiktok.com`, HEAD-resolve it; a resolution error or non-200
status keeps the original URL. -/
def resolveTiktok (net : Net) (u : Url) : Url :=
  if strContains (strLower u.raw) "vm.tiktok.com" ||
     strContains (strLower u.raw) "vt.tiktok.com" ||
     !(strContains (strLower u.raw) "www.tiktok.com") then
    match net.head u with
    | some r => r
    | none => u
  else u

/-- The `pic_cnt` check of `is_tiktok_slideshow` (media_downloader.py
lines 99-109): skip the value `'0'`; otherwise slideshow on a positive
count, and also on a `ValueError` from `int`. -/
def picCntSignalMd (q : List (String × String)) : Bool :=
  match qFirst q "pic_cnt" with
  | none => false
  | some v =>
    if v = "0" then false
    else
      match pyInt v with
      | some n => decide (0 < n)
      | none => true

/-- HTML keyword indicators scanned by `is_tiktok_slideshow`
(media_downloader.py lines 124-133). -/
def slideshow_html_indicators : List String :=
  ["photo-mode", "photoMode", "photoCarousel", "photo-carousel",
   "multiImage", "multi-image", "image-poster", "imagePoster",
   "slideshow", "slide-show", "carousel-container", "imageContainer",
   "photo_mode", "photoSwiper", "gallery-wrapper"]

/-- Page-content heuristics of `is_tiktok_slideshow` (media_downloader.py
lines 122-172): keyword indicators, at least two carousel-style images,
image-related script data, frequency of the words photo/image, or at
least two image meta tags. -/
def tiktokPageSignal (pg : Page) : Bool :=
  slideshow_html_indicators.any (fun ind => strContains pg.text ind) ||
  decide (2 ≤ pg.imgs.countP (fun im =>
    im.hasDataSrc || strContains im.reprLower "carousel" ||
    strContains im.reprLower "slide")) ||
  pg.scripts.any (fun sc =>
    match sc with
    | some s =>
      !(s = "") && (strContains s "imageList" || strContains s "imageMode" ||
        strContains s "images\":" || strContains s "photoIds")
    | none => false) ||
  decide (5 < strCount (strLower pg.text) "photo") ||
  decide (10 < strCount (strLower pg.text) "image") ||
  decide (2 ≤ pg.metas.countP (fun m =>
    match m.content with
    | some c => strStartsWith c "http" && strContains m.reprLower "image"
    | none => false))

/-- Embedding of `is_tiktok_slideshow` (media_downloader.py lines
51-177): resolve the URL, require a tiktok netloc, then try in order the
`/photo/` path marker, `aweme_type=150`, the `pic_cnt` check, and the
page-content heuristics; a failed page fetch skips the page signals and
the function falls through to False. -/
def is_tiktok_slideshow (net : Net) (u0 : Url) : Bool :=
  let u := resolveTiktok net u0
  if !(strContains (strLower u.netloc) "tiktok") then false
  else if strContains (strLower u.path) "/photo/" then true
  else if qFirst u.query "aweme_type" = some "150" then true
  else if picCntSignalMd u.query then true
  else
    match net.page u with
    | none => false
    | some pg => tiktokPageSignal pg

/-- The dispatch guard at the top of `download_video` (media_downloader.py
line 737): explicit slideshow URLs go straight to the slideshow
downloader without consulting the page. -/
def download_video_slideshow_dispatch (u : Url) : Bool :=
  strContains (strLower u.path) "/photo/" || strContains u.raw "aweme_type=150"

/-! ## media_downloader.py: slideshow candidate accumulation -/

/-- The only insertion discipline used on `image_urls` in
`download_tiktok_slideshow`: every append site (media_downloader.py lines
413-414, 453-459, 475-476, 485-487, 495-498, 506-507, 551-552, 569-570,
608-609) is guarded by a `not in image_urls` membership test. -/
def dedupAppend (l : List String) (x : String) : List String :=
  if x ∈ l then l else l ++ [x]

/-- The aggressive pattern sweep (media_downloader.py lines 515-558): fold
each pattern's cleaned matches into the accumulator, stopping after a
pattern once at least two image URLs are known. -/
def aggressiveFold (acc : List String) : List (List String) → List String
  | [] => acc
  | p :: rest =>
    let acc2 := p.foldl dedupAppend acc
    if 2 ≤ acc2.length then acc2 else aggressiveFold acc2 rest

/-- Candidate-URL accumulation of `download_tiktok_slideshow`
(media_downloader.py lines 409-614). `primary` carries the URLs
discovered by meta tags, embedded JSON, img src/srcset and style
attributes in discovery order; the aggressive patterns, the generic
regex and the API lookup each run only while the list is still empty. -/
def collect_image_urls (primary : List String) (aggressive : List (List String))
    (generic : List String) (api : List String) : List String :=
  let urls := primary.foldl dedupAppend []
  if urls.isEmpty then
    let urls2 := aggressiveFold urls aggressive
    if urls2.isEmpty then
      let urls3 := generic.foldl dedupAppend urls2
      if urls3.isEmpty then api.foldl dedupAppend urls3 else urls3
    else urls2
  else urls

/-- Audio-URL extraction of `download_tiktok_slideshow`
(media_downloader.py lines 616-654): first og:audio meta content, else
first http audio-tag src, else the first match of the first audio regex
pattern that matches; a single variable holds the result. -/
def extract_audio_url (metaContents : List String) (audioSrcs : List String)
    (patternMatches : List (List String)) : Option String :=
  match metaContents.head? with
  | some a => some a
  | none =>
    match (audioSrcs.filter (fun s => strStartsWith s "http")).head? with
    | some a => some a
    | none => ((patternMatches.filter (fun m => m ≠ [])).head?).bind List.head?

/-! ## media_downloader.py: asset fetching -/

/-- One asset fetch as `download_tiktok_slideshow` performs it:
`status = none` models a raised exception, otherwise the HTTP status and
the body bytes that would be streamed to disk. -/
structure Fetch where
  url : String
  status : Option Nat
  body : List Nat
deriving DecidableEq, Repr

/-- Success test applied to a fetch (media_downloader.py line 666):
status 200 and nothing else. -/
def fetchOk (f : Fetch) : Bool :=
  f.status = some 200

/-- Local file name used for the i-th slideshow image
(media_downloader.py line 664): always the `.jpg` extension. -/
def imgPath (dir : String) (i : Nat) : String :=
  dir ++ "/image_" ++ toString i ++ ".jpg"

/-- The image-download loop of `download_tiktok_slideshow`
(media_downloader.py lines 661-675), with the enumeration index `i`:
a 200 response writes the body under `image_i.jpg` and records the path;
any other status or an exception is logged and skipped. -/
def downloadImagesAux (dir : String) (i : Nat) : List Fetch → List (String × List Nat)
  | [] => []
  | f :: rest =>
    if fetchOk f then (imgPath dir i, f.body) :: downloadImagesAux dir (i + 1) rest
    else downloadImagesAux dir (i + 1) rest

/-- The image-download loop started at index 0. -/
def downloadImages (dir : String) (fs : List Fetch) : List (String × List Nat) :=
  downloadImagesAux dir 0 fs

/-- Result bundle of `download_tiktok_slideshow` (media_downloader.py
lines 703-706): downloaded image files and an optional audio file. -/
structure SlideshowBundle where
  images : List (String × List Nat)
  audio : Option (String × List Nat)
deriving DecidableEq, Repr

/-- Tail of `download_tiktok_slideshow` (media_downloader.py lines
656-708): fail when no candidate URL was collected; download the images;
download the audio if a URL was found, degrading to no audio on a non-200
status or an exception; fail when no image downloaded, succeed otherwise. -/
def assembleSlideshow (dir : String) (images : List Fetch)
    (audio : Option Fetch) : Option SlideshowBundle :=
  if images = [] then none
  else
    let imagePaths := downloadImages dir images
    let audioPath : Option (String × List Nat) :=
      match audio with
      | none => none
      | some a => if fetchOk a then some (dir ++ "/audio.mp3", a.body) else none
    if imagePaths = [] then none
    else some ⟨imagePaths, audioPath⟩

/-- The direct-download fallback loop inside `download_video`
(media_downloader.py lines 896-920): for each matched URL, `none` models
an exception; on a 200 response the body is written to disk, and the loop
stops with success only when the written file exceeds 10000 bytes.
Returns the accepted body (if any) and every body written to disk. -/
def tiktokFallbackLoop : List (Option (Nat × List Nat)) → Option (List Nat) × List (List Nat)
  | [] => (none, [])
  | none :: rest => tiktokFallbackLoop rest
  | some (status, body) :: rest =>
    if status = 200 then
      if 10000 < body.length then (some body, [body])
      else ((tiktokFallbackLoop rest).1, body :: (tiktokFallbackLoop rest).2)
    else tiktokFallbackLoop rest

/-! ## media_downloader.py: ordered fallback strategies -/

/-- The API fallback loop of `download_tiktok_direct` (media_downloader.py
lines 239-276) with each strategy's outcome abstracted: `some p` is a
completed download returning path `p`, `none` covers an exception, a
non-200 status or a pattern with no match; the first success returns
immediately. -/
def api_loop : List (Option String) → Option String
  | [] => none
  | some p :: _ => some p
  | none :: rest => api_loop rest

/-- Indices of the strategies the loop invokes, starting the count at `i`. -/
def api_loop_trace_from (i : Nat) : List (Option String) → List Nat
  | [] => []
  | some _ :: _ => [i]
  | none :: rest => i :: api_loop_trace_from (i + 1) rest

/-- Indices of the strategies `api_loop` invokes, in invocation order. -/
def api_loop_trace (l : List (Option String)) : List Nat :=
  api_loop_trace_from 0 l

/-- The four-stage TikTok fallback chain of `download_video`
(media_downloader.py lines 844-963): the primary yt-dlp attempt, the
musicaldown yt-dlp retry, the direct page scrape, and the SaveFrom
scrape, each guarded by the failure of everything before it. An outcome
`some p` stands for a produced file path that exists on disk. -/
def tiktok_video_fallback_chain (a1 a2 a3 a4 : Option String) : Option String :=
  match a1 with
  | some p => some p
  | none =>
    match a2 with
    | some p => some p
    | none =>
      match a3 with
      | some p => some p
      | none => a4

/-! ## pinterest_extractor.py: extension derivation -/

/-- Extension chosen by `download_pinterest_image`
(pinterest_extractor.py lines 132-144): from the lowercased content-type
only, defaulting to jpg. -/
def download_pinterest_image_ext (contentType : String) : String :=
  let ct := (strLower contentType)
  if strContains ct "jpeg" || strContains ct "jpg" then "jpg"
  else if strContains ct "png" then "png"
  else if strContains ct "gif" then "gif"
  else if strContains ct "webp" then "webp"
  else "jpg"

/-- Tail of `download_pinterest_video` (pinterest_extractor.py lines
306-326): reject a response whose content-type mentions neither video nor
octet-stream, then choose the extension from the video URL alone,
defaulting to mp4. Returns the chosen extension on success. -/
def download_pinterest_video_finish (contentType videoUrl : String) : Option String :=
  let ct := (strLower contentType)
  if !(strContains ct "video" || strContains ct "octet-stream") then none
  else if strContains (strLower videoUrl) "mp4" then some "mp4"
  else if strContains (strLower videoUrl) "webm" then some "webm"
  else if strContains (strLower videoUrl) "mov" then some "mov"
  else some "mp4"

/-- Modelled from the spec: the content-type map of the claimed
preference order for image extensions. -/
def contentTypeImageExt (ct : String) : Option String :=
  let c := (strLower ct)
  if strContains c "jpeg" || strContains c "jpg" then some "jpg"
  else if strContains c "png" then some "png"
  else if strContains c "gif" then some "gif"
  else if strContains c "webp" then some "webp"
  else none

/-- Modelled from the spec: the content-type map of the claimed
preference order for video extensions. -/
def contentTypeVideoExt (ct : String) : Option String :=
  let c := (strLower ct)
  if strContains c "mp4" then some "mp4"
  else if strContains c "webm" then some "webm"
  else if strContains c "quicktime" || strContains c "mov" then some "mov"
  else none

/-- Modelled from the spec: sniff the remote URL for the first of the
given extensions it mentions. -/
def urlSniffExt (url : String) (exts : List String) : Option String :=
  exts.find? (fun e => strContains (strLower url) e)

/-- Modelled from the spec (section 4.4): extension derived preferentially
from the content-type, falling back to sniffing the URL, falling back to
the kind default, for a video asset. -/
def claimPreferredVideoExt (ct url : String) : String :=
  match contentTypeVideoExt ct with
  | some e => e
  | none =>
    match urlSniffExt url ["mp4", "webm", "mov"] with
    | some e => e
    | none => "mp4"

/-- Modelled from the spec (section 4.4): extension derived preferentially
from the content-type, falling back to sniffing the URL, falling back to
the kind default, for an image asset. -/
def claimPreferredImageExt (ct url : String) : String :=
  match contentTypeImageExt ct with
  | some e => e
  | none =>
    match urlSniffExt url ["jpg", "jpeg", "png", "gif", "webp"] with
    | some e => e
    | none => "jpg"

/-! ## Fixtures used by witnesses -/

/-- A network oracle on which every request fails. -/
def emptyNet : Net :=
  { head := fun _ => none, page := fun _ => none }

/-- A full TikTok photo-post URL. -/
def tiktokPhotoUrl : Url :=
  { raw := "https://www.tiktok.com/@user/photo/7234567890"
    netloc := "www.tiktok.com"
    path := "/@user/photo/7234567890"
    query := [] }

/-- A full TikTok video URL with no slideshow markers. -/
def tiktokVideoUrl : Url :=
  { raw := "https://www.tiktok.com/@user/video/7234567890"
    netloc := "www.tiktok.com"
    path := "/@user/video/7234567890"
    query := [] }

/-- A full TikTok video URL carrying a non-numeric `pic_cnt` parameter. -/
def tiktokPicCntUrl : Url :=
  { raw := "https://www.tiktok.com/@user/video/7234567890?pic_cnt=abc"
    netloc := "www.tiktok.com"
    path := "/@user/video/7234567890"
    query := [("pic_cnt", "abc")] }

/-! ## Claim theorems -/

/-- C1: every URL whose domain matches a supported platform classifies to
a platform other than Unknown, and every URL whose domain matches none of
them fails with UnsupportedPlatform instead of returning a result. -/
theorem claim_C1 (net : Net) (u : Url) :
    (is_valid_url u = true → (get_url_type net u).2 ≠ Platform.unknown)
  ∧ (is_valid_url u = false →
      classify net u = Except.error ClassifyError.UnsupportedPlatform) := by
  constructor
  · intro hval hunk
    revert hunk
    simp only [get_url_type]
    split_ifs with h1 h2 h3 h4 h5 h6 h7 h8 h9 h10 h11 <;>
      intro hunk <;> try exact absurd hunk (by decide)
    simp only [is_valid_url, supported_domains, List.any_cons, List.any_nil,
      Bool.or_eq_true, Bool.or_false] at hval
    rcases hval with h | h | h | h | h | h | h
    · exact h5 (strContains_mono (strLower u.netloc) "tiktok.com" "tiktok"
        (by decide) h)
    · exact h5 (strContains_mono (strLower u.netloc) "vm.tiktok.com" "tiktok"
        (by decide) h)
    · exact h3 (strContains_mono (strLower u.netloc) "instagram.com" "instagram"
        (by decide) h)
    · apply h11
      rw [Bool.or_eq_true]
      exact Or.inl
        (strContains_mono (strLower u.netloc) "youtube.com" "youtube" (by decide) h)
    · apply h11
      rw [Bool.or_eq_true]
      exact Or.inr
        (strContains_mono (strLower u.netloc) "youtu.be" "youtu.be" (by decide) h)
    · apply h1
      rw [Bool.or_eq_true]
      exact Or.inl
        (strContains_mono (strLower u.netloc) "pinterest.com" "pinterest" (by decide) h)
    · apply h1
      rw [Bool.or_eq_true]
      exact Or.inr
        (strContains_mono (strLower u.netloc) "pin.it" "pin.it" (by decide) h)
  · intro hval
    simp [classify, hval]

/-- Witness for C1 at a concrete TikTok URL. -/
theorem claim_C1_witness :
    is_valid_url tiktokPhotoUrl = true
  ∧ (get_url_type emptyNet tiktokPhotoUrl).2 ≠ Platform.unknown :=
  ⟨by decide, (claim_C1 emptyNet tiktokPhotoUrl).1 (by decide)⟩

/-- C4: a TikTok URL whose path carries the explicit `/photo/` marker is
classified Slideshow by `get_url_type` and by `is_tiktok_slideshow`
regardless of query parameters and of any fetched page content, and
`download_video` dispatches it straight to the slideshow downloader. -/
theorem claim_C4 (net : Net) (u : Url)
    (hdom1 : strContains (strLower u.netloc) "pinterest" = false)
    (hdom2 : strContains (strLower u.netloc) "pin.it" = false)
    (hdom3 : strContains (strLower u.netloc) "instagram" = false)
    (hdom4 : strContains (strLower u.netloc) "tiktok" = true)
    (hpath : strContains (strLower u.path) "/photo/" = true) :
    get_url_type net u = (Kind.slideshow, Platform.tiktok)
  ∧ download_video_slideshow_dispatch u = true
  ∧ (∀ (net2 : Net) (u2 : Url),
      strContains (strLower (resolveTiktok net2 u2).netloc) "tiktok" = true →
      strContains (strLower (resolveTiktok net2 u2).path) "/photo/" = true →
      is_tiktok_slideshow net2 u2 = true) := by
  refine ⟨?_, ?_, ?_⟩
  · simp [get_url_type, hdom1, hdom2, hdom3, hdom4, hpath]
  · simp [download_video_slideshow_dispatch, hpath]
  · intro net2 u2 htk hp
    simp [is_tiktok_slideshow, htk, hp]

/-- Witness for C4 at a concrete photo-post URL. -/
theorem claim_C4_witness :
    strContains (strLower tiktokPhotoUrl.path) "/photo/" = true
  ∧ get_url_type emptyNet tiktokPhotoUrl = (Kind.slideshow, Platform.tiktok) :=
  ⟨by decide,
   (claim_C4 emptyNet tiktokPhotoUrl (by decide) (by decide) (by decide)
     (by decide) (by decide)).1⟩

/-- C6: for a TikTok URL with no explicit slideshow marker in path or
query, a failed page fetch skips the content heuristics and slideshow
detection returns false (classification degrades to Video), and if the
page is fetched but no heuristic signal fires the result is false too. -/
theorem claim_C6 (net : Net) (u0 : Url)
    (htk : strContains (strLower (resolveTiktok net u0).netloc) "tiktok" = true)
    (hpath : strContains (strLower (resolveTiktok net u0).path) "/photo/" = false)
    (haweme : qFirst (resolveTiktok net u0).query "aweme_type" ≠ some "150")
    (hpic : picCntSignalMd (resolveTiktok net u0).query = false) :
    (net.page (resolveTiktok net u0) = none → is_tiktok_slideshow net u0 = false)
  ∧ (∀ pg, net.page (resolveTiktok net u0) = some pg →
      tiktokPageSignal pg = false → is_tiktok_slideshow net u0 = false) := by
  constructor
  · intro hpage
    simp [is_tiktok_slideshow, htk, hpath, haweme, hpic, hpage]
  · intro pg hpage hsig
    simp [is_tiktok_slideshow, htk, hpath, haweme, hpic, hpage, hsig]

/-- Witness for C6 at a concrete marker-free video URL with a failing
network. -/
theorem claim_C6_witness :
    picCntSignalMd (resolveTiktok emptyNet tiktokVideoUrl).query = false
  ∧ is_tiktok_slideshow emptyNet tiktokVideoUrl = false :=
  ⟨by decide,
   (claim_C6 emptyNet tiktokVideoUrl (by decide) (by decide) (by decide)
     (by decide)).1 rfl⟩

/-- C9: classification and the slideshow image count are deterministic
functions of the URL and the fixed network oracle: two runs agree on
Platform, MediaKind, slideshow detection and asset count. -/
theorem claim_C9 (net : Net) (u : Url) (r1 r2 : Kind × Platform)
    (b1 b2 : Bool) (dir : String) (fs : List Fetch) (n1 n2 : Nat)
    (h1 : get_url_type net u = r1) (h2 : get_url_type net u = r2)
    (h3 : is_tiktok_slideshow net u = b1) (h4 : is_tiktok_slideshow net u = b2)
    (h5 : (downloadImages dir fs).length = n1)
    (h6 : (downloadImages dir fs).length = n2) :
    r1.1 = r2.1 ∧ r1.2 = r2.2 ∧ b1 = b2 ∧ n1 = n2 := by
  subst h1 h2 h3 h4 h5 h6
  exact ⟨rfl, rfl, rfl, rfl⟩

/-- Witness for C9 at a concrete URL, network and fetch list. -/
theorem claim_C9_witness :
    (get_url_type emptyNet tiktokVideoUrl).1 = (get_url_type emptyNet tiktokVideoUrl).1
  ∧ (get_url_type emptyNet tiktokVideoUrl).2 = (get_url_type emptyNet tiktokVideoUrl).2
  ∧ is_tiktok_slideshow emptyNet tiktokVideoUrl = is_tiktok_slideshow emptyNet tiktokVideoUrl
  ∧ (downloadImages "d" []).length = (downloadImages "d" []).length :=
  claim_C9 emptyNet tiktokVideoUrl _ _ _ _ "d" [] _ _ rfl rfl rfl rfl rfl rfl

/-- C10: a TikTok URL whose `pic_cnt` first value is neither the string 0
nor parseable as an integer is classified Slideshow by `get_url_type`,
and `is_tiktok_slideshow` likewise returns true on such a resolved URL. -/
theorem claim_C10 (net : Net) (u : Url) (v : String)
    (hdom1 : strContains (strLower u.netloc) "pinterest" = false)
    (hdom2 : strContains (strLower u.netloc) "pin.it" = false)
    (hdom3 : strContains (strLower u.netloc) "instagram" = false)
    (hdom4 : strContains (strLower u.netloc) "tiktok" = true)
    (hv : qFirst u.query "pic_cnt" = some v)
    (hparse : pyInt v = none) (hnz : v ≠ "0") :
    get_url_type net u = (Kind.slideshow, Platform.tiktok)
  ∧ (∀ (net2 : Net) (u2 : Url),
      strContains (strLower (resolveTiktok net2 u2).netloc) "tiktok" = true →
      qFirst (resolveTiktok net2 u2).query "pic_cnt" = some v →
      is_tiktok_slideshow net2 u2 = true) := by
  have hsig : picCntSignalUtils u.query = true := by
    simp [picCntSignalUtils, hv, hparse, hnz]
  constructor
  · simp only [get_url_type, hdom1, hdom2, hdom3, hdom4]
    split_ifs with h1 h2 h3 <;> simp_all
  · intro net2 u2 htk hv2
    have hsig2 : picCntSignalMd (resolveTiktok net2 u2).query = true := by
      simp [picCntSignalMd, hv2, hparse, hnz]
    simp only [is_tiktok_slideshow, htk]
    split_ifs with h1 h2 h3 <;> simp_all

/-- Witness for C10 at a concrete URL carrying `pic_cnt=abc`. -/
theorem claim_C10_witness :
    qFirst tiktokPicCntUrl.query "pic_cnt" = some "abc"
  ∧ pyInt "abc" = none
  ∧ get_url_type emptyNet tiktokPicCntUrl = (Kind.slideshow, Platform.tiktok) :=
  ⟨by decide, by decide,
   (claim_C10 emptyNet tiktokPicCntUrl "abc" (by decide) (by decide) (by decide)
     (by decide) (by decide) (by decide) (by decide)).1⟩

/-! ## Helper lemmas about the embedded download loops -/

theorem downloadImagesAux_eq (dir : String) :
    ∀ (fs : List Fetch) (i : Nat),
      downloadImagesAux dir i fs =
        ((List.enumFrom i fs).filter (fun p => fetchOk p.2)).map
          (fun p => (imgPath dir p.1, p.2.body)) := by
  intro fs
  induction fs with
  | nil => intro i; simp [downloadImagesAux]
  | cons f rest ih =>
    intro i
    by_cases h : fetchOk f = true
    · simp [downloadImagesAux, h, List.enumFrom_cons, List.filter_cons, ih]
    · simp [downloadImagesAux, h, List.enumFrom_cons, List.filter_cons, ih]

theorem downloadImagesAux_nil_iff (dir : String) :
    ∀ (fs : List Fetch) (i : Nat),
      downloadImagesAux dir i fs = [] ↔ ∀ f ∈ fs, fetchOk f = false := by
  intro fs
  induction fs with
  | nil => intro i; simp [downloadImagesAux]
  | cons f rest ih =>
    intro i
    by_cases h : fetchOk f = true
    · simp [downloadImagesAux, h]
    · rw [Bool.not_eq_true] at h
      simp [downloadImagesAux, h, ih]

theorem downloadImagesAux_fst_sublist (dir : String) :
    ∀ (fs : List Fetch) (i : Nat),
      ((downloadImagesAux dir i fs).map Prod.fst).Sublist
        ((List.range' i fs.length).map (imgPath dir)) := by
  intro fs
  induction fs with
  | nil => intro i; simp [downloadImagesAux]
  | cons f rest ih =>
    intro i
    by_cases h : fetchOk f = true
    · simp only [downloadImagesAux, h, if_true, List.map_cons, List.length_cons,
        List.range'_succ]
      exact (ih (i + 1)).cons₂ _
    · simp only [downloadImagesAux, h, if_false, List.length_cons, List.range'_succ,
        List.map_cons]
      exact (ih (i + 1)).cons _

theorem tiktokFallbackLoop_success_large :
    ∀ (ms : List (Option (Nat × List Nat))) (b : List Nat),
      (tiktokFallbackLoop ms).1 = some b → 10000 < b.length := by
  intro ms
  induction ms with
  | nil => intro b h; simp [tiktokFallbackLoop] at h
  | cons m rest ih =>
    intro b h
    cases m with
    | none => exact ih b (by simpa [tiktokFallbackLoop] using h)
    | some pair =>
      obtain ⟨status, body⟩ := pair
      by_cases h200 : status = 200
      · subst h200
        by_cases hbig : 10000 < body.length
        · simp [tiktokFallbackLoop, hbig] at h
          subst h
          exact hbig
        · simp [tiktokFallbackLoop, hbig] at h
          exact ih b h
      · simp [tiktokFallbackLoop, h200] at h
        exact ih b h

theorem nodup_dedupAppend (l : List String) (x : String) (h : l.Nodup) :
    (dedupAppend l x).Nodup := by
  unfold dedupAppend
  split_ifs with hx
  · exact h
  · simp [List.nodup_append, h, hx]

theorem nodup_foldl_dedupAppend :
    ∀ (found acc : List String), acc.Nodup → (found.foldl dedupAppend acc).Nodup := by
  intro found
  induction found with
  | nil => intro acc h; simpa using h
  | cons x rest ih =>
    intro acc h
    simp only [List.foldl_cons]
    exact ih _ (nodup_dedupAppend _ _ h)

theorem nodup_aggressiveFold :
    ∀ (pats : List (List String)) (acc : List String),
      acc.Nodup → (aggressiveFold acc pats).Nodup := by
  intro pats
  induction pats with
  | nil => intro acc h; simpa [aggressiveFold] using h
  | cons p rest ih =>
    intro acc h
    simp only [aggressiveFold]
    split_ifs with hl
    · exact nodup_foldl_dedupAppend p acc h
    · exact ih _ (nodup_foldl_dedupAppend p acc h)

theorem api_loop_from (i : Nat) :
    ∀ (outs : List (Option String)) (k : Nat) (p : String),
      outs.get? k = some (some p) → (∀ j, j < k → outs.get? j = some none) →
      api_loop outs = some p ∧ api_loop_trace_from i outs = List.range' i (k + 1) := by
  intro outs
  induction outs generalizing i with
  | nil => intro k p hk _; simp [List.get?] at hk
  | cons o rest ih =>
    intro k p hk hb
    cases k with
    | zero =>
      simp only [List.get?] at hk
      injection hk with hk
      subst hk
      constructor
      · rfl
      · simp [api_loop_trace_from, List.range']
    | succ k' =>
      have h0 : o = none := by
        have := hb 0 (Nat.succ_pos _)
        simpa [List.get?] using this
      subst h0
      have hk' : rest.get? k' = some (some p) := by simpa [List.get?] using hk
      have hb' : ∀ j, j < k' → rest.get? j = some none := by
        intro j hj
        have := hb (j + 1) (Nat.succ_lt_succ hj)
        simpa [List.get?] using this
      obtain ⟨h1, h2⟩ := ih (i + 1) k' p hk' hb'
      constructor
      · simpa [api_loop] using h1
      · simp [api_loop_trace_from, h2, List.range'_succ]

theorem tiktokFallbackLoop_small_kept (body : List Nat)
    (ms2 : List (Option (Nat × List Nat))) (h : ¬ 10000 < body.length) :
    tiktokFallbackLoop (some (200, body) :: ms2) =
      ((tiktokFallbackLoop ms2).1, body :: (tiktokFallbackLoop ms2).2) := by
  simp [tiktokFallbackLoop, h]

/-- C2 counterexample: a slideshow image fetch answered with status 200
and an empty body is returned as a success with a zero-byte file, so
assets are not validated for non-zero size before being returned. -/
theorem claim_C2_counterexample :
    downloadImages "d" [{ url := "u", status := some 200, body := [] }] =
      [("d/image_0.jpg", [])]
  ∧ ¬ (∀ (dir : String) (fetches : List Fetch) (a : String × List Nat),
        a ∈ downloadImages dir fetches → a.2.length ≠ 0) := by
  constructor
  · decide
  · intro h
    have hm : ("d/image_0.jpg", ([] : List Nat)) ∈
        downloadImages "d" [{ url := "u", status := some 200, body := [] }] := by
      decide
    exact h _ _ _ hm rfl

/-- C2 amended: a slideshow image is returned as success exactly when its
HTTP status was 200, with no size or extension validation; the direct
video fallback accepts only files larger than 10000 bytes, but a written
file that fails that check stays on disk instead of being removed. -/
theorem claim_C2 (dir : String) (fetches : List Fetch)
    (ms ms2 : List (Option (Nat × List Nat))) (b body : List Nat) :
    downloadImages dir fetches =
      ((fetches.enum).filter (fun p => fetchOk p.2)).map
        (fun p => (imgPath dir p.1, p.2.body))
  ∧ ((tiktokFallbackLoop ms).1 = some b → 10000 < b.length)
  ∧ (body.length ≤ 10000 →
      body ∈ (tiktokFallbackLoop (some (200, body) :: ms2)).2) := by
  refine ⟨?_, tiktokFallbackLoop_success_large ms b, ?_⟩
  · have h := downloadImagesAux_eq dir fetches 0
    simpa [downloadImages, List.enum] using h
  · intro hsmall
    have hn : ¬ 10000 < body.length := by omega
    rw [tiktokFallbackLoop_small_kept body ms2 hn]
    exact List.mem_cons_self _ _

/-- Witness for C2 at a concrete undersized fallback download. -/
theorem claim_C2_witness :
    ([] : List Nat).length ≤ 10000
  ∧ ([] : List Nat) ∈ (tiktokFallbackLoop [some (200, ([] : List Nat))]).2 :=
  ⟨by decide,
   (claim_C2 "d" [] [] [] [] []).2.2 (by decide)⟩

/-- C3: with at least one candidate image URL collected, the slideshow
download succeeds iff at least one image fetch succeeded (per-image
failures are skipped), a returned bundle always holds at least one image,
and a failed audio fetch yields a successful bundle whose audio is None. -/
theorem claim_C3 (dir : String) (images : List Fetch) (audio : Option Fetch)
    (himgs : images ≠ []) :
    ((∃ b, assembleSlideshow dir images audio = some b) ↔ images.any fetchOk = true)
  ∧ (∀ b, assembleSlideshow dir images audio = some b → b.images ≠ [])
  ∧ (∀ a, audio = some a → fetchOk a = false → images.any fetchOk = true →
      ∃ b, assembleSlideshow dir images audio = some b ∧ b.audio = none) := by
  have hD : downloadImages dir images = [] ↔ ∀ f ∈ images, fetchOk f = false :=
    downloadImagesAux_nil_iff dir images 0
  have hany_iff : images.any fetchOk = true ↔
      ¬ (∀ f ∈ images, fetchOk f = false) := by
    constructor
    · intro h hall
      rcases List.any_eq_true.mp h with ⟨f, hf, hp⟩
      rw [hall f hf] at hp
      exact absurd hp (by simp)
    · intro h
      by_contra hany
      apply h
      intro f hf
      cases hfok : fetchOk f
      · rfl
      · exact absurd (List.any_eq_true.mpr ⟨f, hf, hfok⟩) hany
  refine ⟨?_, ?_, ?_⟩
  · constructor
    · rintro ⟨b, hb⟩
      rw [hany_iff]
      intro hall
      have hnil : downloadImages dir images = [] := hD.mpr hall
      simp [assembleSlideshow, himgs, hnil] at hb
    · intro hany
      have hne : ¬ downloadImages dir images = [] :=
        fun hc => (hany_iff.mp hany) (hD.mp hc)
      refine ⟨⟨downloadImages dir images,
          match audio with
          | none => none
          | some a => if fetchOk a then some (dir ++ "/audio.mp3", a.body) else none⟩,
        ?_⟩
      simp only [assembleSlideshow, if_neg himgs, if_neg hne]
  · intro b hb
    by_cases hne : downloadImages dir images = []
    · simp [assembleSlideshow, himgs, hne] at hb
    · simp only [assembleSlideshow, if_neg himgs, if_neg hne,
        Option.some.injEq] at hb
      rw [← hb]
      exact hne
  · intro a ha hfa hany
    subst ha
    have hne : ¬ downloadImages dir images = [] :=
      fun hc => (hany_iff.mp hany) (hD.mp hc)
    refine ⟨⟨downloadImages dir images, none⟩, ?_, rfl⟩
    simp [assembleSlideshow, himgs, hne, hfa]

/-- Witness for C3 at one successful image and one failed audio fetch. -/
theorem claim_C3_witness :
    ([{ url := "u", status := some 200, body := [1] }] : List Fetch) ≠ []
  ∧ ∃ b, assembleSlideshow "d" [{ url := "u", status := some 200, body := [1] }]
        (some { url := "a", status := some 404, body := [] }) = some b
      ∧ b.audio = none :=
  ⟨by decide,
   (claim_C3 "d" [{ url := "u", status := some 200, body := [1] }]
      (some { url := "a", status := some 404, body := [] }) (by decide)).2.2
     { url := "a", status := some 404, body := [] } rfl (by decide) (by decide)⟩

/-- C5: when exactly the Kth strategy outcome is a success and all before
it fail, the fallback loop invokes strategies 1..K each exactly once in
declared order, returns the Kth result, and invokes nothing after K;
the four-stage chain of download_video is the same first-success loop. -/
theorem claim_C5 (outs : List (Option String)) (k : Nat) (p : String)
    (hk : outs.get? k = some (some p))
    (hbefore : ∀ j, j < k → outs.get? j = some none) :
    api_loop outs = some p
  ∧ api_loop_trace outs = List.range (k + 1)
  ∧ (∀ a1 a2 a3 a4 : Option String,
      tiktok_video_fallback_chain a1 a2 a3 a4 = api_loop [a1, a2, a3, a4]) := by
  obtain ⟨h1, h2⟩ := api_loop_from 0 outs k p hk hbefore
  refine ⟨h1, ?_, ?_⟩
  · rw [api_loop_trace, h2, List.range_eq_range']
  · intro a1 a2 a3 a4
    cases a1 <;> cases a2 <;> cases a3 <;> cases a4 <;> rfl

/-- Witness for C5: the second of two strategies succeeds, both are
invoked in order and the result is the second outcome. -/
theorem claim_C5_witness :
    api_loop [none, some "p"] = some "p"
  ∧ api_loop_trace [none, some "p"] = List.range 2 := by
  have h := claim_C5 [none, some "p"] 1 "p" rfl (by
    intro j hj
    cases j with
    | zero => rfl
    | succ n => exact absurd hj (by omega))
  exact ⟨h.1, h.2.1⟩

/-- C7 counterexample: the Pinterest video extension ignores the declared
content-type (a video/webm response whose URL mentions mov gets extension
mov), and the Pinterest image extension never sniffs the URL (an
undetermined content-type falls straight to the jpg default even when the
URL ends in png), contradicting the claimed preference order. -/
theorem claim_C7_counterexample :
    download_pinterest_video_finish "video/webm"
      "https://v.pinimg.com/videos/clip.mov" = some "mov"
  ∧ claimPreferredVideoExt "video/webm"
      "https://v.pinimg.com/videos/clip.mov" = "webm"
  ∧ download_pinterest_image_ext "" = "jpg"
  ∧ claimPreferredImageExt "" "https://i.pinimg.com/originals/pic.png" = "png"
  ∧ ¬ (∀ ct url e, download_pinterest_video_finish ct url = some e →
        e = claimPreferredVideoExt ct url) := by
  refine ⟨by decide, by decide, by decide, by decide, ?_⟩
  intro h
  have hx := h "video/webm" "https://v.pinimg.com/videos/clip.mov" "mov" (by decide)
  rw [show claimPreferredVideoExt "video/webm"
      "https://v.pinimg.com/videos/clip.mov" = "webm" from by decide] at hx
  exact absurd hx (by decide)

/-- C7 amended: the Pinterest image extension is derived from the
content-type alone with default jpg (the URL is never sniffed), and the
Pinterest video extension is derived from the URL alone with default mp4,
the content-type serving only as a validity gate. -/
theorem claim_C7 (ct url : String) :
    download_pinterest_image_ext ct = (contentTypeImageExt ct).getD "jpg"
  ∧ download_pinterest_video_finish ct url =
      (if strContains (strLower ct) "video" || strContains (strLower ct) "octet-stream"
       then some ((urlSniffExt url ["mp4", "webm", "mov"]).getD "mp4")
       else none) := by
  constructor
  · simp only [download_pinterest_image_ext, contentTypeImageExt]
    split_ifs <;> rfl
  · by_cases hg : (strContains (strLower ct) "video" ||
        strContains (strLower ct) "octet-stream") = true
    · by_cases h1 : strContains (strLower url) "mp4" = true
      · simp [download_pinterest_video_finish, urlSniffExt, List.find?, hg, h1]
      · by_cases h2 : strContains (strLower url) "webm" = true
        · simp [download_pinterest_video_finish, urlSniffExt, List.find?, hg, h1, h2]
        · by_cases h3 : strContains (strLower url) "mov" = true
          · simp [download_pinterest_video_finish, urlSniffExt, List.find?,
              hg, h1, h2, h3]
          · simp [download_pinterest_video_finish, urlSniffExt, List.find?,
              hg, h1, h2, h3]
    · rw [Bool.not_eq_true] at hg
      simp [download_pinterest_video_finish, urlSniffExt, hg]

/-- C8: the accumulated candidate image URL list never contains a
duplicate, at most one audio URL is retained, and the downloaded images
keep the discovery order of their candidates with failures removed (the
returned path sequence is a sublist of the candidate path sequence). -/
theorem claim_C8 (primary : List String) (aggressive : List (List String))
    (generic api m1 m2 : List String) (m3 : List (List String))
    (dir : String) (fetches : List Fetch) :
    (collect_image_urls primary aggressive generic api).Nodup
  ∧ (extract_audio_url m1 m2 m3).toList.length ≤ 1
  ∧ ((downloadImages dir fetches).map Prod.fst).Sublist
      ((List.range fetches.length).map (imgPath dir)) := by
  refine ⟨?_, ?_, ?_⟩
  · have h0 : (primary.foldl dedupAppend []).Nodup :=
      nodup_foldl_dedupAppend _ _ List.nodup_nil
    have h1 : (aggressiveFold (primary.foldl dedupAppend []) aggressive).Nodup :=
      nodup_aggressiveFold _ _ h0
    have h2 := nodup_foldl_dedupAppend generic _ h1
    have h3 := nodup_foldl_dedupAppend api _ h2
    simp only [collect_image_urls]
    split_ifs <;> assumption
  · cases h : extract_audio_url m1 m2 m3 <;> simp [Option.toList]
  · rw [List.range_eq_range']
    exact downloadImagesAux_fst_sublist dir fetches 0
